import Mathlib

/-!
Verification development for the gear-room checkout lifecycle and
reconciliation engine.

The definitions below are a shallow embedding of the TypeScript source:
  * `src/domain/types.ts`                      — domain enums
  * `src/domain/entities/checkout.ts`          — the `Checkout` aggregate
  * `src/domain/entities/gear-item.ts`         — the `GearItem` catalog entity
  * `src/application/use-cases/return-use-cases.ts` — the batch return use case

Conventions of the embedding:
  * JavaScript `Date` values are modelled as epoch milliseconds (`Int`);
    `a < b` on `Date` is integer `<` on the epoch milliseconds.
  * JavaScript numbers used as quantities are modelled as `Int`.
  * `T | null` / optional parameters are modelled as `Option`.
  * `Result<T, E>` mirrors `src/application/result.ts`.
  * Array `findIndex` followed by a functional update of the found element is
    embedded as structural recursion over the list: the first element
    satisfying the match is inspected/replaced, the rest is untouched.
  * The injected clock is modelled by passing the value `clock.now()` would
    produce (`now : Int`) to each operation.
-/

namespace GearRoom

/-- `GearCondition` from `src/domain/types.ts`. -/
inductive GearCondition where
  | EXCELLENT
  | GOOD
  | FAIR
  | NEEDS_REPAIR
  | RETIRED
deriving DecidableEq, Repr

/-- `GearStatus` from `src/domain/types.ts`. -/
inductive GearStatus where
  | AVAILABLE
  | CHECKED_OUT
  | MAINTENANCE
  | RETIRED
deriving DecidableEq, Repr

/-- `CheckoutStatus` from `src/domain/types.ts`. -/
inductive CheckoutStatus where
  | ACTIVE
  | PARTIALLY_RETURNED
  | COMPLETED
deriving DecidableEq, Repr

/-- `Result<T, E>` from `src/application/result.ts`. -/
inductive Result (α ε : Type) where
  | ok (value : α)
  | err (error : ε)
deriving DecidableEq, Repr

/-- `CheckoutItem` from `src/domain/entities/checkout.ts` (one line of a
checkout; either an individual gear item or a bulk quantity of a type). -/
structure CheckoutItem where
  gearItemId : Option String
  gearTypeId : Option String
  quantity : Int
  checkedOutAt : Int
  dueAt : Int
  returnedAt : Option Int
  returnedQuantity : Int
  conditionAtCheckout : Option GearCondition
  conditionAtReturn : Option GearCondition
  returnNotes : Option String
deriving DecidableEq, Repr

/-- The aggregate state (`CheckoutProps` in `src/domain/entities/checkout.ts`;
the `Checkout` class is an immutable wrapper around these fields). -/
structure Checkout where
  id : String
  memberId : String
  staffMemberId : String
  items : List CheckoutItem
  status : CheckoutStatus
  createdAt : Int
  completedAt : Option Int
  notes : Option String
deriving DecidableEq, Repr

/-- `CheckoutItemInput` from `src/domain/entities/checkout.ts`. -/
inductive CheckoutItemInput where
  | individual (gearItemId : String)
  | bulk (gearTypeId : String) (quantity : Int)
deriving DecidableEq, Repr

/-- One entry of `CreateCheckoutInput.items`. -/
structure CreateItemSpec where
  input : CheckoutItemInput
  dueAt : Int
  conditionAtCheckout : Option GearCondition
deriving DecidableEq, Repr

/-- `CreateCheckoutError` from `src/domain/entities/checkout.ts`. -/
inductive CreateCheckoutError where
  | no_items
  | invalid_quantity (index : Nat) (quantity : Int)
deriving DecidableEq, Repr

/-- `ReturnItemError` from `src/domain/entities/checkout.ts`. -/
inductive ReturnItemError where
  | item_not_found (gearItemId : String)
  | item_already_returned
  | checkout_completed
deriving DecidableEq, Repr

/-- `ReturnBulkError` from `src/domain/entities/checkout.ts`. -/
inductive ReturnBulkError where
  | item_not_found (gearTypeId : String)
  | invalid_quantity (requested : Int) (remaining : Int)
  | checkout_completed
deriving DecidableEq, Repr

/-- Error type of `Checkout.extendDueDate`. -/
inductive ExtendDueDateError where
  | item_not_found
  | item_already_returned
deriving DecidableEq, Repr

/-- Whitespace in the sense of JavaScript `String.prototype.trim`
(the ASCII whitespace characters plus no-break space and the BOM; other
Unicode space separators are omitted as they do not occur in this domain). -/
def isJsWhitespace (ch : Char) : Bool :=
  ch = ' ' || ch = '\t' || ch = '\n' || ch = '\r' ||
  ch = '\x0b' || ch = '\x0c' || ch = '\u00A0' || ch = '\uFEFF'

/-- JavaScript `s.trim()`: strip leading and trailing whitespace. -/
def jsTrim (s : String) : String :=
  String.mk (((s.data.dropWhile isJsWhitespace).reverse.dropWhile isJsWhitespace).reverse)

/-- The JavaScript expression `notes?.trim() || null` (optional chaining plus
`||`, under which the empty string is falsy): `undefined` and
whitespace-only strings both collapse to `null`, anything else is trimmed. -/
def trimNotes (notes : Option String) : Option String :=
  match notes with
  | none => none
  | some s => if jsTrim s = "" then none else some (jsTrim s)

/-- The JavaScript expression `notes?.trim() || fallback`. -/
def notesOr (notes : Option String) (fallback : Option String) : Option String :=
  match trimNotes notes with
  | none => fallback
  | some t => some t

/-- `Checkout.isItemFullyReturned` (checkout.ts lines 291-299): individual
lines are resolved once `returnedAt` is set, bulk lines once
`returnedQuantity >= quantity`. -/
def isItemFullyReturned (item : CheckoutItem) : Bool :=
  match item.gearItemId with
  | some _ => item.returnedAt.isSome
  | none => item.returnedQuantity ≥ item.quantity

/-- The `someReturned` predicate inside `Checkout.calculateStatus`
(checkout.ts lines 438-444): any visible return progress on a line. -/
def itemHasReturnProgress (item : CheckoutItem) : Bool :=
  match item.gearItemId with
  | some _ => item.returnedAt.isSome
  | none => item.returnedQuantity > 0

/-- `Checkout.calculateStatus` (checkout.ts lines 436-453). -/
def calculateStatus (items : List CheckoutItem) : CheckoutStatus :=
  let allReturned := items.all isItemFullyReturned
  let someReturned := items.any itemHasReturnProgress
  if allReturned then CheckoutStatus.COMPLETED
  else if someReturned then CheckoutStatus.PARTIALLY_RETURNED
  else CheckoutStatus.ACTIVE

/-- The body of `Checkout.returnItem` after the completed-status guard
(checkout.ts lines 316-336): `findIndex` of the first line whose
`gearItemId` equals the argument, the already-returned check on that line,
and the functional update of that line only. -/
def returnItemInList (itemId : String) (condition : GearCondition)
    (notes : Option String) (now : Int) :
    List CheckoutItem → Result (List CheckoutItem) ReturnItemError
  | [] => Result.err (ReturnItemError.item_not_found itemId)
  | item :: rest =>
    if item.gearItemId = some itemId then
      if item.returnedAt.isSome then
        Result.err ReturnItemError.item_already_returned
      else
        Result.ok ({ item with
          returnedAt := some now
          conditionAtReturn := some condition
          returnNotes := trimNotes notes } :: rest)
    else
      match returnItemInList itemId condition notes now rest with
      | Result.ok rest' => Result.ok (item :: rest')
      | Result.err e => Result.err e

/-- `Checkout.returnItem` (checkout.ts lines 306-348). -/
def Checkout.returnItem (c : Checkout) (itemId : String)
    (condition : GearCondition) (notes : Option String) (now : Int) :
    Result Checkout ReturnItemError :=
  if c.status = CheckoutStatus.COMPLETED then
    Result.err ReturnItemError.checkout_completed
  else
    match returnItemInList itemId condition notes now c.items with
    | Result.err e => Result.err e
    | Result.ok updatedItems =>
      let newStatus := calculateStatus updatedItems
      Result.ok { c with
        items := updatedItems
        status := newStatus
        completedAt := if newStatus = CheckoutStatus.COMPLETED then some now else none }

/-- The body of `Checkout.returnBulkItem` after the completed-status guard
(checkout.ts lines 363-388): `findIndex` of the first line whose
`gearTypeId` equals the argument, the remaining-quantity guard, and the
functional update of that line only. -/
def returnBulkItemInList (typeId : String) (quantity : Int)
    (notes : Option String) (now : Int) :
    List CheckoutItem → Result (List CheckoutItem) ReturnBulkError
  | [] => Result.err (ReturnBulkError.item_not_found typeId)
  | item :: rest =>
    if item.gearTypeId = some typeId then
      let remaining := item.quantity - item.returnedQuantity
      if quantity > remaining then
        Result.err (ReturnBulkError.invalid_quantity quantity remaining)
      else
        let newReturnedQuantity := item.returnedQuantity + quantity
        let isFullyReturned : Bool := newReturnedQuantity ≥ item.quantity
        Result.ok ({ item with
          returnedQuantity := newReturnedQuantity
          returnedAt := if isFullyReturned then some now else item.returnedAt
          returnNotes := notesOr notes item.returnNotes } :: rest)
    else
      match returnBulkItemInList typeId quantity notes now rest with
      | Result.ok rest' => Result.ok (item :: rest')
      | Result.err e => Result.err e

/-- `Checkout.returnBulkItem` (checkout.ts lines 353-400). -/
def Checkout.returnBulkItem (c : Checkout) (typeId : String) (quantity : Int)
    (notes : Option String) (now : Int) :
    Result Checkout ReturnBulkError :=
  if c.status = CheckoutStatus.COMPLETED then
    Result.err ReturnBulkError.checkout_completed
  else
    match returnBulkItemInList typeId quantity notes now c.items with
    | Result.err e => Result.err e
    | Result.ok updatedItems =>
      let newStatus := calculateStatus updatedItems
      Result.ok { c with
        items := updatedItems
        status := newStatus
        completedAt := if newStatus = CheckoutStatus.COMPLETED then some now else none }

/-- The body of `Checkout.extendDueDate` (checkout.ts lines 409-426):
`findIndex` of the first line matching the argument as either an item id or
a type id, the fully-returned check, and the `dueAt` update on that line. -/
def extendDueDateInList (itemId : String) (newDueDate : Int) :
    List CheckoutItem → Result (List CheckoutItem) ExtendDueDateError
  | [] => Result.err ExtendDueDateError.item_not_found
  | item :: rest =>
    if item.gearItemId = some itemId ∨ item.gearTypeId = some itemId then
      if isItemFullyReturned item then
        Result.err ExtendDueDateError.item_already_returned
      else
        Result.ok ({ item with dueAt := newDueDate } :: rest)
    else
      match extendDueDateInList itemId newDueDate rest with
      | Result.ok rest' => Result.ok (item :: rest')
      | Result.err e => Result.err e

/-- `Checkout.extendDueDate` (checkout.ts lines 405-434). Note: it neither
checks the completed status nor recomputes `status`/`completedAt`. -/
def Checkout.extendDueDate (c : Checkout) (itemId : String)
    (newDueDate : Int) : Result Checkout ExtendDueDateError :=
  match extendDueDateInList itemId newDueDate c.items with
  | Result.err e => Result.err e
  | Result.ok updatedItems => Result.ok { c with items := updatedItems }

/-- The item-construction loop of `Checkout.create` (checkout.ts lines
150-175), carrying the running index for the `invalid_quantity` error. -/
def buildCheckoutItems (now : Int) :
    Nat → List CreateItemSpec → Result (List CheckoutItem) CreateCheckoutError
  | _, [] => Result.ok []
  | i, spec :: rest =>
    match spec.input with
    | CheckoutItemInput.bulk tid q =>
      if q < 1 then Result.err (CreateCheckoutError.invalid_quantity i q)
      else
        match buildCheckoutItems now (i + 1) rest with
        | Result.err e => Result.err e
        | Result.ok items =>
          Result.ok ({ gearItemId := none
                       gearTypeId := some tid
                       quantity := q
                       checkedOutAt := now
                       dueAt := spec.dueAt
                       returnedAt := none
                       returnedQuantity := 0
                       conditionAtCheckout := spec.conditionAtCheckout
                       conditionAtReturn := none
                       returnNotes := none } :: items)
    | CheckoutItemInput.individual gid =>
      match buildCheckoutItems now (i + 1) rest with
      | Result.err e => Result.err e
      | Result.ok items =>
        Result.ok ({ gearItemId := some gid
                     gearTypeId := none
                     quantity := 1
                     checkedOutAt := now
                     dueAt := spec.dueAt
                     returnedAt := none
                     returnedQuantity := 0
                     conditionAtCheckout := spec.conditionAtCheckout
                     conditionAtReturn := none
                     returnNotes := none } :: items)

/-- `Checkout.create` (checkout.ts lines 139-189). `newId` stands for
`deps.idGenerator.generate()` and `now` for `deps.clock.now()`. -/
def Checkout.create (memberId staffMemberId : String)
    (specs : List CreateItemSpec) (notes : Option String)
    (newId : String) (now : Int) : Result Checkout CreateCheckoutError :=
  if specs.isEmpty then Result.err CreateCheckoutError.no_items
  else
    match buildCheckoutItems now 0 specs with
    | Result.err e => Result.err e
    | Result.ok checkoutItems =>
      Result.ok { id := newId
                  memberId := memberId
                  staffMemberId := staffMemberId
                  items := checkoutItems
                  status := CheckoutStatus.ACTIVE
                  createdAt := now
                  completedAt := none
                  notes := trimNotes notes }

/-- `Checkout.isOverdue` (checkout.ts lines 254-258). -/
def Checkout.isOverdue (c : Checkout) (asOf : Int) : Bool :=
  c.items.any fun item => !isItemFullyReturned item && decide (item.dueAt < asOf)

/-- `Checkout.getOverdueItems` (checkout.ts lines 263-267). -/
def Checkout.getOverdueItems (c : Checkout) (asOf : Int) : List CheckoutItem :=
  c.items.filter fun item => !isItemFullyReturned item && decide (item.dueAt < asOf)

/-- `Checkout.getActiveItems` (checkout.ts lines 272-274). -/
def Checkout.getActiveItems (c : Checkout) : List CheckoutItem :=
  c.items.filter fun item => !isItemFullyReturned item

/-- `Math.floor((asOf - dueAt) / (1000*60*60*24))` for one item
(checkout.ts line 285); `Int.fdiv` is floor division like `Math.floor`
of a real quotient. -/
def itemDaysOverdue (asOf : Int) (item : CheckoutItem) : Int :=
  (asOf - item.dueAt).fdiv 86400000

/-- `Checkout.daysOverdue` (checkout.ts lines 279-289): 0 when nothing is
overdue, otherwise `Math.max(0, Math.max(...days))` over the overdue items. -/
def Checkout.daysOverdue (c : Checkout) (asOf : Int) : Int :=
  match c.getOverdueItems asOf with
  | [] => 0
  | item :: rest =>
    max 0 (rest.foldl (fun acc it => max acc (itemDaysOverdue asOf it))
      (itemDaysOverdue asOf item))

/-- The catalog entity state (`GearItemProps` in
`src/domain/entities/gear-item.ts`). -/
structure GearItem where
  id : String
  gearTypeId : String
  code : String
  condition : GearCondition
  status : GearStatus
  notes : Option String
  acquiredAt : Int
  retiredAt : Option Int
  updatedAt : Int
deriving DecidableEq, Repr

/-- Error type of `GearItem.markReturned`. -/
inductive MarkReturnedError where
  | not_checked_out
deriving DecidableEq, Repr

/-- `GearItem.markReturned` (gear-item.ts lines 195-217): only a
`CHECKED_OUT` item can be returned; a return in condition `NEEDS_REPAIR`
routes the item to `MAINTENANCE` instead of `AVAILABLE`. -/
def GearItem.markReturned (g : GearItem) (condition : GearCondition)
    (now : Int) : Result GearItem MarkReturnedError :=
  if g.status ≠ GearStatus.CHECKED_OUT then
    Result.err MarkReturnedError.not_checked_out
  else
    let newStatus :=
      if condition = GearCondition.NEEDS_REPAIR then GearStatus.MAINTENANCE
      else GearStatus.AVAILABLE
    Result.ok { g with status := newStatus, condition := condition, updatedAt := now }

/-- One entry of `ReturnItemsInput.returns`
(return-use-cases.ts lines 160-169). -/
structure ReturnRequest where
  gearItemId : Option String
  condition : Option GearCondition
  gearTypeId : Option String
  quantity : Option Int
  notes : Option String
deriving DecidableEq, Repr

/-- `ReturnItemsInput` from return-use-cases.ts. -/
structure ReturnItemsInput where
  checkoutId : String
  returns : List ReturnRequest
deriving DecidableEq, Repr

/-- `ReturnItemsError` from return-use-cases.ts. -/
inductive ReturnItemsError where
  | checkout_not_found (checkoutId : String)
  | checkout_already_completed
  | item_not_in_checkout (itemId : String)
  | item_already_returned (itemId : String)
deriving DecidableEq, Repr

/-- JavaScript truthiness of an optional string (`if (returnReq.gearItemId)`):
`undefined` and the empty string are falsy. -/
def truthyStr : Option String → Bool
  | none => false
  | some s => s ≠ ""

/-- JavaScript truthiness of an optional number (`returnReq.quantity` in
`else if (returnReq.gearTypeId && returnReq.quantity)`): `undefined` and `0`
are falsy. -/
def truthyInt : Option Int → Bool
  | none => false
  | some q => q ≠ 0

/-- The request loop of `returnItems` (return-use-cases.ts lines 198-246):
each request is applied sequentially to the in-memory running copy of the
aggregate, accumulating updated catalog items for individual returns; the
first failing request aborts with the mapped error. `findGearItem` stands
for `deps.gearItemRepo.findById`. Requests that name neither a truthy
`gearItemId` nor a truthy `gearTypeId`-with-quantity are skipped. -/
def processReturns (findGearItem : String → Option GearItem) (now : Int) :
    Checkout → List GearItem → List ReturnRequest →
    Result (Checkout × List GearItem) ReturnItemsError
  | c, acc, [] => Result.ok (c, acc)
  | c, acc, req :: rest =>
    if truthyStr req.gearItemId then
      let gid := req.gearItemId.getD ""
      match c.returnItem gid (req.condition.getD GearCondition.GOOD) req.notes now with
      | Result.err (ReturnItemError.item_not_found _) =>
        Result.err (ReturnItemsError.item_not_in_checkout gid)
      | Result.err ReturnItemError.item_already_returned =>
        Result.err (ReturnItemsError.item_already_returned gid)
      | Result.err ReturnItemError.checkout_completed =>
        Result.err ReturnItemsError.checkout_already_completed
      | Result.ok c' =>
        let acc' :=
          match findGearItem gid with
          | none => acc
          | some g =>
            match g.markReturned (req.condition.getD GearCondition.GOOD) now with
            | Result.ok g' => acc ++ [g']
            | Result.err _ => acc
        processReturns findGearItem now c' acc' rest
    else if truthyStr req.gearTypeId && truthyInt req.quantity then
      let tid := req.gearTypeId.getD ""
      match c.returnBulkItem tid (req.quantity.getD 0) req.notes now with
      | Result.err _ => Result.err (ReturnItemsError.item_not_in_checkout tid)
      | Result.ok c' => processReturns findGearItem now c' acc rest
    else
      processReturns findGearItem now c acc rest

/-- Success payload of `returnItems` (the member lookup and event payload are
projections of this and of the repositories, out of scope here). -/
structure ReturnItemsSuccess where
  checkout : Checkout
  checkoutComplete : Bool
deriving DecidableEq, Repr

/-- The persisted effects of one `returnItems` call: the checkouts passed to
`checkoutRepo.save` and the gear items passed to `gearItemRepo.save`. -/
structure ReturnItemsEffects where
  result : Result ReturnItemsSuccess ReturnItemsError
  savedCheckouts : List Checkout
  savedGearItems : List GearItem
deriving DecidableEq, Repr

/-- `returnItems` (return-use-cases.ts lines 181-274): load the checkout,
fail fast on a missing or already-completed checkout, run the request loop
against the running copy, and only on full success persist the final
aggregate once together with all accumulated catalog-item updates.
`findCheckout` stands for `checkoutRepo.findById`. -/
def returnItems (findCheckout : String → Option Checkout)
    (findGearItem : String → Option GearItem) (now : Int)
    (input : ReturnItemsInput) : ReturnItemsEffects :=
  match findCheckout input.checkoutId with
  | none =>
    { result := Result.err (ReturnItemsError.checkout_not_found input.checkoutId)
      savedCheckouts := []
      savedGearItems := [] }
  | some initialCheckout =>
    if initialCheckout.status = CheckoutStatus.COMPLETED then
      { result := Result.err ReturnItemsError.checkout_already_completed
        savedCheckouts := []
        savedGearItems := [] }
    else
      match processReturns findGearItem now initialCheckout [] input.returns with
      | Result.err e =>
        { result := Result.err e
          savedCheckouts := []
          savedGearItems := [] }
      | Result.ok (finalCheckout, gearItemsToUpdate) =>
        { result := Result.ok
            { checkout := finalCheckout
              checkoutComplete := finalCheckout.status = CheckoutStatus.COMPLETED }
          savedCheckouts := [finalCheckout]
          savedGearItems := gearItemsToUpdate }

/-- States of the `Checkout` aggregate reachable by `create` followed by any
sequence of successful return operations. -/
inductive Reachable : Checkout → Prop where
  | created (memberId staffMemberId : String) (specs : List CreateItemSpec)
      (notes : Option String) (newId : String) (now : Int) (c : Checkout) :
      Checkout.create memberId staffMemberId specs notes newId now = Result.ok c →
      Reachable c
  | returnedItem (c : Checkout) (itemId : String) (condition : GearCondition)
      (notes : Option String) (now : Int) (c' : Checkout) :
      Reachable c →
      c.returnItem itemId condition notes now = Result.ok c' →
      Reachable c'
  | returnedBulk (c : Checkout) (typeId : String) (quantity : Int)
      (notes : Option String) (now : Int) (c' : Checkout) :
      Reachable c →
      c.returnBulkItem typeId quantity notes now = Result.ok c' →
      Reachable c'

/-- As `Reachable`, but every accepted bulk return had a nonnegative
requested quantity. -/
inductive ReachableNN : Checkout → Prop where
  | created (memberId staffMemberId : String) (specs : List CreateItemSpec)
      (notes : Option String) (newId : String) (now : Int) (c : Checkout) :
      Checkout.create memberId staffMemberId specs notes newId now = Result.ok c →
      ReachableNN c
  | returnedItem (c : Checkout) (itemId : String) (condition : GearCondition)
      (notes : Option String) (now : Int) (c' : Checkout) :
      ReachableNN c →
      c.returnItem itemId condition notes now = Result.ok c' →
      ReachableNN c'
  | returnedBulk (c : Checkout) (typeId : String) (quantity : Int)
      (notes : Option String) (now : Int) (c' : Checkout) :
      ReachableNN c →
      0 ≤ quantity →
      c.returnBulkItem typeId quantity notes now = Result.ok c' →
      ReachableNN c'

/-! ## Helper lemmas about the line-item operations -/

theorem returnItemInList_first_match (itemId : String) (condition : GearCondition)
    (notes : Option String) (now : Int) (pre : List CheckoutItem)
    (item : CheckoutItem) (post : List CheckoutItem)
    (hpre : ∀ x ∈ pre, ¬ x.gearItemId = some itemId)
    (hmatch : item.gearItemId = some itemId) :
    returnItemInList itemId condition notes now (pre ++ item :: post) =
      if item.returnedAt.isSome then Result.err ReturnItemError.item_already_returned
      else Result.ok (pre ++
        ({ item with
             returnedAt := some now
             conditionAtReturn := some condition
             returnNotes := trimNotes notes } :: post)) := by
  induction pre with
  | nil => cases hra : item.returnedAt.isSome <;> simp [returnItemInList, hmatch, hra]
  | cons x xs ih =>
    have hx : ¬ x.gearItemId = some itemId := hpre x (by simp)
    have hxs : ∀ y ∈ xs, ¬ y.gearItemId = some itemId := fun y hy => hpre y (by simp [hy])
    cases hra : item.returnedAt.isSome <;>
      simp [returnItemInList, hx, ih hxs, hra]

theorem returnItemInList_no_match (itemId : String) (condition : GearCondition)
    (notes : Option String) (now : Int) (l : List CheckoutItem)
    (hl : ∀ x ∈ l, ¬ x.gearItemId = some itemId) :
    returnItemInList itemId condition notes now l =
      Result.err (ReturnItemError.item_not_found itemId) := by
  induction l with
  | nil => simp [returnItemInList]
  | cons x xs ih =>
    have hx : ¬ x.gearItemId = some itemId := hl x (by simp)
    have hxs : ∀ y ∈ xs, ¬ y.gearItemId = some itemId := fun y hy => hl y (by simp [hy])
    simp [returnItemInList, hx, ih hxs]

theorem returnItemInList_ok_then_already (itemId : String)
    (condition condition' : GearCondition) (notes notes' : Option String)
    (now now' : Int) (l l' : List CheckoutItem)
    (h : returnItemInList itemId condition notes now l = Result.ok l') :
    returnItemInList itemId condition' notes' now' l' =
      Result.err ReturnItemError.item_already_returned := by
  induction l generalizing l' with
  | nil => simp [returnItemInList] at h
  | cons x xs ih =>
    by_cases hx : x.gearItemId = some itemId
    · cases hra : x.returnedAt.isSome
      · simp [returnItemInList, hx, hra] at h
        subst h
        simp [returnItemInList, hx]
      · simp [returnItemInList, hx, hra] at h
    · simp only [returnItemInList, if_neg hx] at h
      cases hr : returnItemInList itemId condition notes now xs with
      | ok rest' =>
        rw [hr] at h
        simp only [] at h
        cases h
        simp [returnItemInList, hx, ih rest' hr]
      | err e => rw [hr] at h; simp at h

theorem returnBulkItemInList_first_match (typeId : String) (quantity : Int)
    (notes : Option String) (now : Int) (pre : List CheckoutItem)
    (item : CheckoutItem) (post : List CheckoutItem)
    (hpre : ∀ x ∈ pre, ¬ x.gearTypeId = some typeId)
    (hmatch : item.gearTypeId = some typeId) :
    returnBulkItemInList typeId quantity notes now (pre ++ item :: post) =
      if quantity > item.quantity - item.returnedQuantity then
        Result.err (ReturnBulkError.invalid_quantity quantity
          (item.quantity - item.returnedQuantity))
      else Result.ok (pre ++
        ({ item with
             returnedQuantity := item.returnedQuantity + quantity
             returnedAt :=
               if item.returnedQuantity + quantity ≥ item.quantity then some now
               else item.returnedAt
             returnNotes := notesOr notes item.returnNotes } :: post)) := by
  induction pre with
  | nil =>
    by_cases hq : quantity > item.quantity - item.returnedQuantity <;>
      simp [returnBulkItemInList, hmatch, hq]
  | cons x xs ih =>
    have hx : ¬ x.gearTypeId = some typeId := hpre x (by simp)
    have hxs : ∀ y ∈ xs, ¬ y.gearTypeId = some typeId := fun y hy => hpre y (by simp [hy])
    by_cases hq : quantity > item.quantity - item.returnedQuantity <;>
      simp [returnBulkItemInList, hx, ih hxs, hq]

theorem extendDueDateInList_ok_exists (itemId : String) (newDueDate : Int)
    (l l' : List CheckoutItem)
    (h : extendDueDateInList itemId newDueDate l = Result.ok l') :
    ∃ pre item post,
      l = pre ++ item :: post ∧
      (∀ x ∈ pre, ¬ (x.gearItemId = some itemId ∨ x.gearTypeId = some itemId)) ∧
      (item.gearItemId = some itemId ∨ item.gearTypeId = some itemId) ∧
      isItemFullyReturned item = false ∧
      l' = pre ++ ({ item with dueAt := newDueDate } :: post) := by
  induction l generalizing l' with
  | nil => simp [extendDueDateInList] at h
  | cons x xs ih =>
    by_cases hx : x.gearItemId = some itemId ∨ x.gearTypeId = some itemId
    · cases hfull : isItemFullyReturned x
      · simp [extendDueDateInList, hx, hfull] at h
        exact ⟨[], x, xs, by simp, by simp, hx, hfull, by simp [h.symm]⟩
      · simp [extendDueDateInList, hx, hfull] at h
    · simp only [extendDueDateInList, if_neg hx] at h
      cases hr : extendDueDateInList itemId newDueDate xs with
      | ok rest' =>
        rw [hr] at h
        simp only [] at h
        cases h
        obtain ⟨pre, item, post, hsplit, hpre, hm, hf, hres⟩ := ih rest' hr
        refine ⟨x :: pre, item, post, by simp [hsplit], ?_, hm, hf, by simp [hres]⟩
        intro y hy
        rcases List.mem_cons.mp hy with hy' | hy'
        · exact hy' ▸ hx
        · exact hpre y hy'
      | err e => rw [hr] at h; simp at h

/-! ## Properties of freshly created line items -/

theorem buildCheckoutItems_ok (now : Int) (i : Nat) (specs : List CreateItemSpec)
    (items : List CheckoutItem)
    (h : buildCheckoutItems now i specs = Result.ok items) :
    items.length = specs.length ∧
    ∀ item ∈ items, item.returnedAt = none ∧ item.returnedQuantity = 0 ∧
      1 ≤ item.quantity := by
  induction specs generalizing i items with
  | nil =>
    simp [buildCheckoutItems] at h
    subst h
    simp
  | cons spec rest ih =>
    cases hinput : spec.input with
    | bulk tid q =>
      by_cases hq : q < 1
      · simp [buildCheckoutItems, hinput, hq] at h
      · simp only [buildCheckoutItems, hinput, if_neg hq] at h
        cases hr : buildCheckoutItems now (i + 1) rest with
        | err e => rw [hr] at h; simp at h
        | ok tl =>
          rw [hr] at h
          simp only [] at h
          cases h
          obtain ⟨hlen, hall⟩ := ih (i + 1) tl hr
          refine ⟨by simp [hlen], ?_⟩
          intro item hmem
          rcases List.mem_cons.mp hmem with rfl | hmem'
          · exact ⟨rfl, rfl, by simp; omega⟩
          · exact hall item hmem'
    | individual gid =>
      simp only [buildCheckoutItems, hinput] at h
      cases hr : buildCheckoutItems now (i + 1) rest with
      | err e => rw [hr] at h; simp at h
      | ok tl =>
        rw [hr] at h
        simp only [] at h
        cases h
        obtain ⟨hlen, hall⟩ := ih (i + 1) tl hr
        refine ⟨by simp [hlen], ?_⟩
        intro item hmem
        rcases List.mem_cons.mp hmem with rfl | hmem'
        · exact ⟨rfl, rfl, by simp⟩
        · exact hall item hmem'

theorem calculateStatus_fresh (items : List CheckoutItem)
    (hne : items ≠ [])
    (hall : ∀ item ∈ items, item.returnedAt = none ∧ item.returnedQuantity = 0 ∧
      1 ≤ item.quantity) :
    calculateStatus items = CheckoutStatus.ACTIVE := by
  have hnotfull : ∀ item ∈ items, isItemFullyReturned item = false := by
    intro item hmem
    obtain ⟨hra, hrq, hq⟩ := hall item hmem
    unfold isItemFullyReturned
    cases hgi : item.gearItemId <;> simp [hra, hrq]
    omega
  have hnoprog : ∀ item ∈ items, itemHasReturnProgress item = false := by
    intro item hmem
    obtain ⟨hra, hrq, hq⟩ := hall item hmem
    unfold itemHasReturnProgress
    cases hgi : item.gearItemId <;> simp [hra, hrq]
  unfold calculateStatus
  cases items with
  | nil => exact absurd rfl hne
  | cons x xs =>
    have hx := hnotfull x (by simp)
    simp only [List.all_cons, hx, Bool.false_and, if_false]
    have : (x :: xs).any itemHasReturnProgress = false :=
      List.any_eq_false.mpr (fun item hmem => by simp [hnoprog item hmem])
    simp [this]

/-! ## The status/completedAt consistency invariant -/

/-- The two derived-state invariants of the aggregate: the stored status is
the recomputation over the line items, and `completedAt` is populated exactly
for completed checkouts. -/
def StatusConsistent (c : Checkout) : Prop :=
  c.status = calculateStatus c.items ∧
  (c.completedAt.isSome = true ↔ c.status = CheckoutStatus.COMPLETED)

theorem create_ok_statusConsistent (memberId staffMemberId : String)
    (specs : List CreateItemSpec) (notes : Option String) (newId : String)
    (now : Int) (c : Checkout)
    (h : Checkout.create memberId staffMemberId specs notes newId now = Result.ok c) :
    StatusConsistent c := by
  unfold Checkout.create at h
  by_cases hne : specs.isEmpty
  · simp [hne] at h
  · simp only [hne, if_false, Bool.false_eq_true] at h
    cases hb : buildCheckoutItems now 0 specs with
    | err e => rw [hb] at h; simp at h
    | ok items =>
      rw [hb] at h
      simp only [] at h
      cases h
      obtain ⟨hlen, hall⟩ := buildCheckoutItems_ok now 0 specs items hb
      have hine : items ≠ [] := by
        intro hcon
        rw [hcon] at hlen
        have hs : specs = [] := List.length_eq_zero.mp hlen.symm
        rw [hs] at hne
        simp at hne
      constructor
      · exact (calculateStatus_fresh items hine hall).symm
      · simp

theorem returnItem_ok_statusConsistent (c : Checkout) (itemId : String)
    (condition : GearCondition) (notes : Option String) (now : Int)
    (c' : Checkout) (h : c.returnItem itemId condition notes now = Result.ok c') :
    StatusConsistent c' := by
  unfold Checkout.returnItem at h
  by_cases hc : c.status = CheckoutStatus.COMPLETED
  · simp [hc] at h
  · simp only [hc, if_false] at h
    cases hr : returnItemInList itemId condition notes now c.items with
    | err e => rw [hr] at h; simp at h
    | ok items' =>
      rw [hr] at h
      simp only [] at h
      cases h
      constructor
      · rfl
      · by_cases hs : calculateStatus items' = CheckoutStatus.COMPLETED <;> simp [hs]

theorem returnBulkItem_ok_statusConsistent (c : Checkout) (typeId : String)
    (quantity : Int) (notes : Option String) (now : Int)
    (c' : Checkout) (h : c.returnBulkItem typeId quantity notes now = Result.ok c') :
    StatusConsistent c' := by
  unfold Checkout.returnBulkItem at h
  by_cases hc : c.status = CheckoutStatus.COMPLETED
  · simp [hc] at h
  · simp only [hc, if_false] at h
    cases hr : returnBulkItemInList typeId quantity notes now c.items with
    | err e => rw [hr] at h; simp at h
    | ok items' =>
      rw [hr] at h
      simp only [] at h
      cases h
      constructor
      · rfl
      · by_cases hs : calculateStatus items' = CheckoutStatus.COMPLETED <;> simp [hs]

theorem reachable_statusConsistent (c : Checkout) (h : Reachable c) :
    StatusConsistent c := by
  induction h with
  | created memberId staffMemberId specs notes newId now c hc =>
    exact create_ok_statusConsistent memberId staffMemberId specs notes newId now c hc
  | returnedItem c itemId condition notes now c' _ hret _ =>
    exact returnItem_ok_statusConsistent c itemId condition notes now c' hret
  | returnedBulk c typeId quantity notes now c' _ hret _ =>
    exact returnBulkItem_ok_statusConsistent c typeId quantity notes now c' hret

/-! ## Inversion and preservation lemmas for the return operations -/

theorem returnItem_ok_inv (c : Checkout) (itemId : String)
    (condition : GearCondition) (notes : Option String) (now : Int)
    (c' : Checkout) (h : c.returnItem itemId condition notes now = Result.ok c') :
    ¬ c.status = CheckoutStatus.COMPLETED ∧
    ∃ items', returnItemInList itemId condition notes now c.items = Result.ok items' ∧
      c' = { c with
               items := items'
               status := calculateStatus items'
               completedAt :=
                 if calculateStatus items' = CheckoutStatus.COMPLETED then some now
                 else none } := by
  unfold Checkout.returnItem at h
  by_cases hc : c.status = CheckoutStatus.COMPLETED
  · rw [if_pos hc] at h
    simp at h
  · rw [if_neg hc] at h
    cases hr : returnItemInList itemId condition notes now c.items with
    | err e => rw [hr] at h; simp at h
    | ok items' =>
      rw [hr] at h
      simp only [] at h
      injection h with h2
      exact ⟨hc, items', rfl, h2.symm⟩

theorem returnBulkItem_ok_inv (c : Checkout) (typeId : String) (quantity : Int)
    (notes : Option String) (now : Int)
    (c' : Checkout) (h : c.returnBulkItem typeId quantity notes now = Result.ok c') :
    ¬ c.status = CheckoutStatus.COMPLETED ∧
    ∃ items', returnBulkItemInList typeId quantity notes now c.items = Result.ok items' ∧
      c' = { c with
               items := items'
               status := calculateStatus items'
               completedAt :=
                 if calculateStatus items' = CheckoutStatus.COMPLETED then some now
                 else none } := by
  unfold Checkout.returnBulkItem at h
  by_cases hc : c.status = CheckoutStatus.COMPLETED
  · rw [if_pos hc] at h
    simp at h
  · rw [if_neg hc] at h
    cases hr : returnBulkItemInList typeId quantity notes now c.items with
    | err e => rw [hr] at h; simp at h
    | ok items' =>
      rw [hr] at h
      simp only [] at h
      injection h with h2
      exact ⟨hc, items', rfl, h2.symm⟩

/-- The quantity bounds tracked for C4: on lines with no individual
reference (bulk lines), the returned quantity stays within `[0, quantity]`. -/
def ItemBounds (item : CheckoutItem) : Prop :=
  item.gearItemId = none →
    0 ≤ item.returnedQuantity ∧ item.returnedQuantity ≤ item.quantity

theorem returnItemInList_ok_bounds (itemId : String) (condition : GearCondition)
    (notes : Option String) (now : Int) (l l' : List CheckoutItem)
    (h : returnItemInList itemId condition notes now l = Result.ok l')
    (hl : ∀ x ∈ l, ItemBounds x) : ∀ x ∈ l', ItemBounds x := by
  induction l generalizing l' with
  | nil => simp [returnItemInList] at h
  | cons x xs ih =>
    by_cases hx : x.gearItemId = some itemId
    · cases hra : x.returnedAt.isSome
      · simp [returnItemInList, hx, hra] at h
        subst h
        intro y hy
        rcases List.mem_cons.mp hy with hy' | hy'
        · subst hy'
          intro hnone
          simp at hnone
        · exact hl y (by simp [hy'])
      · simp [returnItemInList, hx, hra] at h
    · simp only [returnItemInList, if_neg hx] at h
      cases hr : returnItemInList itemId condition notes now xs with
      | err e => rw [hr] at h; simp at h
      | ok rest' =>
        rw [hr] at h
        simp only [] at h
        cases h
        intro y hy
        rcases List.mem_cons.mp hy with hy' | hy'
        · subst hy'
          exact hl y (by simp)
        · exact ih rest' hr (fun z hz => hl z (by simp [hz])) y hy'

theorem returnBulkItemInList_ok_bounds (typeId : String) (quantity : Int)
    (notes : Option String) (now : Int) (l l' : List CheckoutItem)
    (hq : 0 ≤ quantity)
    (h : returnBulkItemInList typeId quantity notes now l = Result.ok l')
    (hl : ∀ x ∈ l, ItemBounds x) : ∀ x ∈ l', ItemBounds x := by
  induction l generalizing l' with
  | nil => simp [returnBulkItemInList] at h
  | cons x xs ih =>
    by_cases hx : x.gearTypeId = some typeId
    · by_cases hrem : quantity > x.quantity - x.returnedQuantity
      · rw [show returnBulkItemInList typeId quantity notes now (x :: xs) =
            Result.err (ReturnBulkError.invalid_quantity quantity
              (x.quantity - x.returnedQuantity)) by
            simp only [returnBulkItemInList, if_pos hx]
            rw [if_pos hrem]] at h
        simp at h
      · simp only [returnBulkItemInList, if_pos hx] at h
        rw [if_neg hrem] at h
        cases h
        intro y hy
        rcases List.mem_cons.mp hy with hy' | hy'
        · subst hy'
          intro hnone
          have hb := hl x (by simp) hnone
          refine ⟨?_, ?_⟩
          · show (0 : Int) ≤ x.returnedQuantity + quantity
            omega
          · show x.returnedQuantity + quantity ≤ x.quantity
            omega
        · exact hl y (by simp [hy'])
    · simp only [returnBulkItemInList, if_neg hx] at h
      cases hr : returnBulkItemInList typeId quantity notes now xs with
      | err e => rw [hr] at h; simp at h
      | ok rest' =>
        rw [hr] at h
        simp only [] at h
        cases h
        intro y hy
        rcases List.mem_cons.mp hy with hy' | hy'
        · subst hy'
          exact hl y (by simp)
        · exact ih rest' hr (fun z hz => hl z (by simp [hz])) y hy'

/-! ## Concrete sample values for witnesses and counterexamples -/

/-- Creation spec: individual item "A", due at t=100, condition GOOD. -/
def specIndA : CreateItemSpec :=
  ⟨CheckoutItemInput.individual "A", 100, some GearCondition.GOOD⟩

/-- Creation spec: individual item "B", due at t=100, condition GOOD. -/
def specIndB : CreateItemSpec :=
  ⟨CheckoutItemInput.individual "B", 100, some GearCondition.GOOD⟩

/-- Creation spec: bulk type "T", quantity 2, due at t=100. -/
def specBulkT2 : CreateItemSpec := ⟨CheckoutItemInput.bulk "T" 2, 100, none⟩

/-- Creation spec: bulk type "U", quantity 1, due at t=100. -/
def specBulkU1 : CreateItemSpec := ⟨CheckoutItemInput.bulk "U" 1, 100, none⟩

/-- Creation spec: bulk type "V", quantity 5, due at t=100. -/
def specBulkV5 : CreateItemSpec := ⟨CheckoutItemInput.bulk "V" 5, 100, none⟩

/-- Fresh individual line for item "A". -/
def itemIndA : CheckoutItem :=
  ⟨some "A", none, 1, 0, 100, none, 0, some GearCondition.GOOD, none, none⟩

/-- Fresh individual line for item "B". -/
def itemIndB : CheckoutItem :=
  ⟨some "B", none, 1, 0, 100, none, 0, some GearCondition.GOOD, none, none⟩

/-- Line for item "A" after a return at t=5 in condition GOOD, no notes. -/
def itemIndA5 : CheckoutItem :=
  ⟨some "A", none, 1, 0, 100, some 5, 0, some GearCondition.GOOD,
    some GearCondition.GOOD, none⟩

/-- Line for item "A" after a return at t=5 with notes " damaged ". -/
def itemIndA5d : CheckoutItem :=
  ⟨some "A", none, 1, 0, 100, some 5, 0, some GearCondition.GOOD,
    some GearCondition.GOOD, some "damaged"⟩

/-- Fresh bulk line: type "T", quantity 2. -/
def itemBulkT : CheckoutItem := ⟨none, some "T", 2, 0, 100, none, 0, none, none, none⟩

/-- Bulk line of type "T" fully returned at t=5. -/
def itemBulkT2r : CheckoutItem :=
  ⟨none, some "T", 2, 0, 100, some 5, 2, none, none, none⟩

/-- Bulk line of type "T" fully returned, `returnedAt` overwritten to t=9. -/
def itemBulkT2r9 : CheckoutItem :=
  ⟨none, some "T", 2, 0, 100, some 9, 2, none, none, none⟩

/-- Bulk line of type "T" with a negative returned quantity. -/
def itemBulkTneg : CheckoutItem :=
  ⟨none, some "T", 2, 0, 100, none, -1, none, none, none⟩

/-- Fresh bulk line: type "U", quantity 1. -/
def itemBulkU : CheckoutItem := ⟨none, some "U", 1, 0, 100, none, 0, none, none, none⟩

/-- Fresh bulk line: type "V", quantity 5. -/
def itemBulkV : CheckoutItem := ⟨none, some "V", 5, 0, 100, none, 0, none, none, none⟩

/-- Bulk line of type "V" after returning quantity 3. -/
def itemBulkV3 : CheckoutItem := ⟨none, some "V", 5, 0, 100, none, 3, none, none, none⟩

/-- Bulk line of type "V" fully returned (3 then 2) at t=20. -/
def itemBulkV5r : CheckoutItem :=
  ⟨none, some "V", 5, 0, 100, some 20, 5, none, none, none⟩

/-- Active checkout holding only the individual line "A". -/
def ckIndA : Checkout := ⟨"ck", "m", "s", [itemIndA], CheckoutStatus.ACTIVE, 0, none, none⟩

/-- `ckIndA` after returning "A" at t=5: completed. -/
def ckIndA5 : Checkout :=
  ⟨"ck", "m", "s", [itemIndA5], CheckoutStatus.COMPLETED, 0, some 5, none⟩

/-- `ckIndA` after returning "A" at t=5 with notes " damaged ". -/
def ckIndA5d : Checkout :=
  ⟨"ck", "m", "s", [itemIndA5d], CheckoutStatus.COMPLETED, 0, some 5, none⟩

/-- Active checkout holding the individual lines "A" and "B". -/
def ckAB : Checkout :=
  ⟨"ck", "m", "s", [itemIndA, itemIndB], CheckoutStatus.ACTIVE, 0, none, none⟩

/-- `ckAB` after returning "A" at t=5: partially returned. -/
def ckAB5 : Checkout :=
  ⟨"ck", "m", "s", [itemIndA5, itemIndB], CheckoutStatus.PARTIALLY_RETURNED, 0, none, none⟩

/-- Active checkout holding one bulk line of type "T" (quantity 2). -/
def ckT : Checkout := ⟨"ck", "m", "s", [itemBulkT], CheckoutStatus.ACTIVE, 0, none, none⟩

/-- `ckT` after a bulk return of quantity -1. -/
def ckTneg : Checkout :=
  ⟨"ck", "m", "s", [itemBulkTneg], CheckoutStatus.ACTIVE, 0, none, none⟩

/-- Active checkout with bulk lines "T" (quantity 2) and "U" (quantity 1). -/
def ckTU : Checkout :=
  ⟨"ck", "m", "s", [itemBulkT, itemBulkU], CheckoutStatus.ACTIVE, 0, none, none⟩

/-- `ckTU` after fully returning type "T" at t=5: partially returned. -/
def ckTU5 : Checkout :=
  ⟨"ck", "m", "s", [itemBulkT2r, itemBulkU], CheckoutStatus.PARTIALLY_RETURNED, 0, none, none⟩

/-- `ckTU5` after a quantity-0 return of type "T" at t=9. -/
def ckTU9 : Checkout :=
  ⟨"ck", "m", "s", [itemBulkT2r9, itemBulkU], CheckoutStatus.PARTIALLY_RETURNED, 0, none, none⟩

/-- Active checkout holding one bulk line of type "V" (quantity 5). -/
def ckV : Checkout := ⟨"ck", "m", "s", [itemBulkV], CheckoutStatus.ACTIVE, 0, none, none⟩

/-- `ckV` after returning quantity 3 at t=10. -/
def ckV3 : Checkout :=
  ⟨"ck", "m", "s", [itemBulkV3], CheckoutStatus.PARTIALLY_RETURNED, 0, none, none⟩

/-- `ckV3` after returning quantity 2 at t=20: completed. -/
def ckV5 : Checkout :=
  ⟨"ck", "m", "s", [itemBulkV5r], CheckoutStatus.COMPLETED, 0, some 20, none⟩

/-- A checked-out catalog item. -/
def gearG1 : GearItem :=
  ⟨"G1", "T", "BIKE-003", GearCondition.GOOD, GearStatus.CHECKED_OUT, none, 0, none, 0⟩

/-- Batch request: return individual item "A" in condition GOOD. -/
def reqIndA : ReturnRequest := ⟨some "A", some GearCondition.GOOD, none, none, none⟩

/-! ## Claim theorems -/

/-- C1: for every checkout reachable by `create` followed by any sequence of
successful return operations, the stored status equals the derivation rule
over the line items (`COMPLETED` iff every line is fully resolved —
individual: `returnedAt` non-null, bulk: `returnedQuantity >= quantity`;
else `PARTIALLY_RETURNED` iff at least one line shows return progress; else
`ACTIVE`), and `completedAt` is non-null if and only if the status is
`COMPLETED`. -/
theorem checkout_status_derivation_invariant (c : Checkout) (h : Reachable c) :
    (c.status = CheckoutStatus.COMPLETED ↔ c.items.all isItemFullyReturned = true) ∧
    (c.status = CheckoutStatus.PARTIALLY_RETURNED ↔
      (¬ c.items.all isItemFullyReturned = true ∧
        c.items.any itemHasReturnProgress = true)) ∧
    (c.status = CheckoutStatus.ACTIVE ↔
      (¬ c.items.all isItemFullyReturned = true ∧
        ¬ c.items.any itemHasReturnProgress = true)) ∧
    (¬ c.completedAt = none ↔ c.status = CheckoutStatus.COMPLETED) := by
  obtain ⟨hs, hca⟩ := reachable_statusConsistent c h
  have hca' : (¬ c.completedAt = none) ↔ c.status = CheckoutStatus.COMPLETED := by
    rw [← hca]
    cases c.completedAt <;> simp
  refine ⟨?_, ?_, ?_, hca'⟩ <;> rw [hs] <;> unfold calculateStatus <;>
    cases hall : c.items.all isItemFullyReturned <;>
    cases hsome : c.items.any itemHasReturnProgress <;> simp

/-- C1 witness: the invariant instantiated at a concrete reachable checkout
(the result of creating a checkout with one individual line). -/
theorem checkout_status_derivation_invariant_witness :
    ¬ ckIndA.completedAt = none ↔ ckIndA.status = CheckoutStatus.COMPLETED :=
  (checkout_status_derivation_invariant ckIndA
    (Reachable.created "m" "s" [specIndA] none "ck" 0 ckIndA (by decide))).2.2.2

/-- C2 counterexample: the claim states `returnNotes = notes ?? null` on a
successful individual return, but the code stores `notes?.trim() || null`:
returning with notes `" damaged "` stores `"damaged"`, not `" damaged "`. -/
theorem returnItem_notes_not_raw :
    ckIndA.returnItem "A" GearCondition.GOOD (some " damaged ") 5 =
      Result.ok ckIndA5d ∧
    ¬ ckIndA5d.items.map CheckoutItem.returnNotes = [some " damaged "] := by
  constructor
  · decide
  · decide

/-- C2 (amended): `returnItem` fails with `checkout_completed` whenever the
aggregate status is `COMPLETED`, before any per-line lookup; otherwise it
fails `item_not_found` if no line references the item id, and
`item_already_returned` if the first such line has `returnedAt` set; on
success it sets `returnedAt = asOf`, `conditionAtReturn = condition` and
`returnNotes = trim(notes)` when notes is provided and nonblank, else null
(overwriting) on that line only, recomputes the status, and sets
`completedAt = asOf` if and only if the new status is `COMPLETED`, else
null. -/
theorem returnItem_spec (c : Checkout) (itemId : String)
    (condition : GearCondition) (notes : Option String) (now : Int) :
    (c.status = CheckoutStatus.COMPLETED →
      c.returnItem itemId condition notes now =
        Result.err ReturnItemError.checkout_completed) ∧
    (¬ c.status = CheckoutStatus.COMPLETED →
      ((∀ x ∈ c.items, ¬ x.gearItemId = some itemId) →
        c.returnItem itemId condition notes now =
          Result.err (ReturnItemError.item_not_found itemId)) ∧
      (∀ pre item post,
        c.items = pre ++ item :: post →
        (∀ x ∈ pre, ¬ x.gearItemId = some itemId) →
        item.gearItemId = some itemId →
        ((¬ item.returnedAt = none →
            c.returnItem itemId condition notes now =
              Result.err ReturnItemError.item_already_returned) ∧
         (item.returnedAt = none →
            c.returnItem itemId condition notes now = Result.ok
              (let updatedItems := pre ++
                ({ item with
                     returnedAt := some now
                     conditionAtReturn := some condition
                     returnNotes := trimNotes notes } :: post)
               let newStatus := calculateStatus updatedItems
               { c with
                   items := updatedItems
                   status := newStatus
                   completedAt :=
                     if newStatus = CheckoutStatus.COMPLETED then some now
                     else none }))))) := by
  constructor
  · intro hc
    unfold Checkout.returnItem
    rw [if_pos hc]
  · intro hnc
    constructor
    · intro hnone
      unfold Checkout.returnItem
      rw [if_neg hnc, returnItemInList_no_match _ _ _ _ _ hnone]
    · intro pre item post hsplit hpre hmatch
      constructor
      · intro hra
        have hra' : item.returnedAt.isSome = true := by
          cases hira : item.returnedAt
          · exact absurd hira hra
          · rfl
        unfold Checkout.returnItem
        rw [if_neg hnc, hsplit,
          returnItemInList_first_match _ _ _ _ _ _ _ hpre hmatch, if_pos hra']
      · intro hra
        have hra' : item.returnedAt.isSome = false := by rw [hra]; rfl
        unfold Checkout.returnItem
        rw [if_neg hnc, hsplit,
          returnItemInList_first_match _ _ _ _ _ _ _ hpre hmatch, if_neg (by simp [hra'])]

/-- C2 witness: on a completed checkout, even an unknown item id yields
`checkout_completed`, not `item_not_found`. -/
theorem returnItem_spec_witness :
    ckIndA5.returnItem "ZZZ" GearCondition.GOOD none 9 =
      Result.err ReturnItemError.checkout_completed :=
  (returnItem_spec ckIndA5 "ZZZ" GearCondition.GOOD none 9).1 (by decide)

/-- C3: `returnBulkItem`, on a non-completed checkout whose first line for
the given type id has `remaining = quantity - returnedQuantity`, fails with
`invalid_quantity (requested, remaining)` exactly when the requested
quantity exceeds `remaining`; on success it adds the requested quantity to
`returnedQuantity`, sets `returnedAt = asOf` exactly when the line becomes
fully satisfied, overwrites `returnNotes` only when notes is provided
(never clearing it), and recomputes `status`/`completedAt`; concretely,
returning 3 then 2 from a bulk line of quantity 5 yields
`returnedQuantity = 5`, `returnedAt` set, and status `COMPLETED` as it was
the last unresolved line. -/
theorem returnBulkItem_spec (c : Checkout) (tid : String) (q : Int)
    (notes : Option String) (now : Int)
    (pre : List CheckoutItem) (item : CheckoutItem) (post : List CheckoutItem)
    (hsplit : c.items = pre ++ item :: post)
    (hpre : ∀ x ∈ pre, ¬ x.gearTypeId = some tid)
    (hmatch : item.gearTypeId = some tid)
    (hnc : ¬ c.status = CheckoutStatus.COMPLETED) :
    (c.returnBulkItem tid q notes now =
        Result.err (ReturnBulkError.invalid_quantity q
          (item.quantity - item.returnedQuantity)) ↔
      q > item.quantity - item.returnedQuantity) ∧
    (¬ q > item.quantity - item.returnedQuantity →
      ((item.returnedQuantity + q ≥ item.quantity ↔
          item.returnedQuantity + q = item.quantity) ∧
       c.returnBulkItem tid q notes now = Result.ok
         (let updatedItems := pre ++
           ({ item with
                returnedQuantity := item.returnedQuantity + q
                returnedAt :=
                  if item.returnedQuantity + q ≥ item.quantity then some now
                  else item.returnedAt
                returnNotes := notesOr notes item.returnNotes } :: post)
          let newStatus := calculateStatus updatedItems
          { c with
              items := updatedItems
              status := newStatus
              completedAt :=
                if newStatus = CheckoutStatus.COMPLETED then some now
                else none }))) ∧
    (notes = none → notesOr notes item.returnNotes = item.returnNotes) ∧
    (¬ item.returnNotes = none → ¬ notesOr notes item.returnNotes = none) ∧
    (ckV.returnBulkItem "V" 3 none 10 = Result.ok ckV3 ∧
     ckV3.returnBulkItem "V" 2 none 20 = Result.ok ckV5 ∧
     ckV5.items.map CheckoutItem.returnedQuantity = [5] ∧
     ckV5.items.map CheckoutItem.returnedAt = [some 20] ∧
     ckV5.status = CheckoutStatus.COMPLETED) := by
  have hmain : c.returnBulkItem tid q notes now =
      if q > item.quantity - item.returnedQuantity then
        Result.err (ReturnBulkError.invalid_quantity q
          (item.quantity - item.returnedQuantity))
      else Result.ok
        (let updatedItems := pre ++
          ({ item with
               returnedQuantity := item.returnedQuantity + q
               returnedAt :=
                 if item.returnedQuantity + q ≥ item.quantity then some now
                 else item.returnedAt
               returnNotes := notesOr notes item.returnNotes } :: post)
         let newStatus := calculateStatus updatedItems
         { c with
             items := updatedItems
             status := newStatus
             completedAt :=
               if newStatus = CheckoutStatus.COMPLETED then some now
               else none }) := by
    unfold Checkout.returnBulkItem
    rw [if_neg hnc, hsplit,
      returnBulkItemInList_first_match _ _ _ _ _ _ _ hpre hmatch]
    by_cases hq : q > item.quantity - item.returnedQuantity
    · rw [if_pos hq, if_pos hq]
    · rw [if_neg hq, if_neg hq]
  refine ⟨?_, ?_, ?_, ?_, by decide, by decide, by decide, by decide, by decide⟩
  · rw [hmain]
    by_cases hq : q > item.quantity - item.returnedQuantity
    · simp [hq]
    · simp [hq]
  · intro hq
    refine ⟨by omega, ?_⟩
    rw [hmain, if_neg hq]
  · intro hn
    subst hn
    rfl
  · intro hn
    unfold notesOr
    cases trimNotes notes <;> simp [hn]

/-- C3 witness: requesting 9 from a bulk line with remaining 2 fails with
`invalid_quantity (9, 2)`. -/
theorem returnBulkItem_spec_witness :
    ckTU.returnBulkItem "T" 9 none 7 =
      Result.err (ReturnBulkError.invalid_quantity 9 2) :=
  (returnBulkItem_spec ckTU "T" 9 none 7 [] itemBulkT [itemBulkU]
    (by decide) (by decide) (by decide) (by decide)).1.mpr (by decide)

/-- C4 counterexample: the aggregate accepts a negative requested quantity
(the only guard is `quantity > remaining`), driving `returnedQuantity`
below 0 on a checkout reached by `create` followed by one accepted
`returnBulkItem` call. -/
theorem returnBulkItem_negative_quantity_breaks_bounds :
    Checkout.create "m" "s" [specBulkT2] none "ck" 0 = Result.ok ckT ∧
    ckT.returnBulkItem "T" (-1) none 7 = Result.ok ckTneg ∧
    ckTneg.items.map CheckoutItem.returnedQuantity = [-1] ∧
    ¬ ∀ item ∈ ckTneg.items, item.gearItemId = none →
        0 ≤ item.returnedQuantity ∧ item.returnedQuantity ≤ item.quantity := by
  refine ⟨by decide, by decide, by decide, by decide⟩

/-- C4 (amended): for every checkout reachable by `create` followed by
successful return operations in which every accepted bulk return requested
a nonnegative quantity, every bulk line satisfies
`0 ≤ returnedQuantity ≤ quantity`. -/
theorem bulk_returnedQuantity_bounds (c : Checkout) (h : ReachableNN c) :
    ∀ item ∈ c.items, item.gearItemId = none →
      0 ≤ item.returnedQuantity ∧ item.returnedQuantity ≤ item.quantity := by
  induction h with
  | created memberId staffMemberId specs notes newId now c hc =>
    unfold Checkout.create at hc
    by_cases hne : specs.isEmpty
    · simp [hne] at hc
    · rw [if_neg (by simp [hne])] at hc
      cases hb : buildCheckoutItems now 0 specs with
      | err e => rw [hb] at hc; simp at hc
      | ok items =>
        rw [hb] at hc
        simp only [] at hc
        injection hc with h2
        obtain ⟨_, hall⟩ := buildCheckoutItems_ok now 0 specs items hb
        intro item hmem hnone
        have hmem' : item ∈ items := by rw [← h2] at hmem; exact hmem
        obtain ⟨_, hrq, hq⟩ := hall item hmem'
        constructor
        · omega
        · omega
  | returnedItem c itemId condition notes now c' _ hret ih =>
    obtain ⟨_, items', hr, hc'⟩ := returnItem_ok_inv c itemId condition notes now c' hret
    intro item hmem hnone
    have hmem' : item ∈ items' := by rw [hc'] at hmem; exact hmem
    exact returnItemInList_ok_bounds itemId condition notes now c.items items' hr
      (fun x hx hn => ih x hx hn) item hmem' hnone
  | returnedBulk c typeId quantity notes now c' _ hq hret ih =>
    obtain ⟨_, items', hr, hc'⟩ := returnBulkItem_ok_inv c typeId quantity notes now c' hret
    intro item hmem hnone
    have hmem' : item ∈ items' := by rw [hc'] at hmem; exact hmem
    exact returnBulkItemInList_ok_bounds typeId quantity notes now c.items items' hq hr
      (fun x hx hn => ih x hx hn) item hmem' hnone

/-- C4 witness: the bounds instantiated on a concrete reachable checkout's
bulk line. -/
theorem bulk_returnedQuantity_bounds_witness :
    0 ≤ itemBulkT.returnedQuantity ∧ itemBulkT.returnedQuantity ≤ itemBulkT.quantity :=
  bulk_returnedQuantity_bounds ckTU
    (ReachableNN.created "m" "s" [specBulkT2, specBulkU1] none "ck" 0 ckTU (by decide))
    itemBulkT (by decide) (by decide)

/-- C5 counterexample: returning the same item twice does not always yield
`item_already_returned` on the second call — when the first return completed
the checkout, the second call fails with `checkout_completed` instead. -/
theorem returnItem_twice_completed_counterexample :
    ckIndA.returnItem "A" GearCondition.GOOD none 5 = Result.ok ckIndA5 ∧
    ckIndA5.returnItem "A" GearCondition.GOOD none 6 =
      Result.err ReturnItemError.checkout_completed ∧
    ¬ ckIndA5.returnItem "A" GearCondition.GOOD none 6 =
      Result.err ReturnItemError.item_already_returned := by
  refine ⟨by decide, by decide, by decide⟩

/-- C5 (amended): the return operations are pure functions returning a new
aggregate value, and every error leaves no modified aggregate; calling
`returnItem` twice for the same item makes the second call fail —
with `item_already_returned` when the first return left the checkout
non-completed, and with `checkout_completed` when it completed it. -/
theorem returnItem_twice_spec (c c' : Checkout) (itemId : String)
    (cond cond' : GearCondition) (notes notes' : Option String) (now now' : Int)
    (h : c.returnItem itemId cond notes now = Result.ok c') :
    (¬ c'.status = CheckoutStatus.COMPLETED →
      c'.returnItem itemId cond' notes' now' =
        Result.err ReturnItemError.item_already_returned) ∧
    (c'.status = CheckoutStatus.COMPLETED →
      c'.returnItem itemId cond' notes' now' =
        Result.err ReturnItemError.checkout_completed) := by
  obtain ⟨_, items', hr, hc'⟩ := returnItem_ok_inv c itemId cond notes now c' h
  constructor
  · intro hnc
    unfold Checkout.returnItem
    rw [if_neg hnc]
    have hitems : c'.items = items' := by rw [hc']
    rw [hitems,
      returnItemInList_ok_then_already itemId cond cond' notes notes' now now'
        c.items items' hr]
  · intro hcomp
    unfold Checkout.returnItem
    rw [if_pos hcomp]

/-- C5 witness: on a two-line checkout the second return of the same item
fails with `item_already_returned`, and the aggregate value from the first
call is what the second call still observes. -/
theorem returnItem_twice_spec_witness :
    ckAB5.returnItem "A" GearCondition.GOOD none 6 =
      Result.err ReturnItemError.item_already_returned :=
  (returnItem_twice_spec ckAB ckAB5 "A" GearCondition.GOOD GearCondition.GOOD
    none none 5 6 (by decide)).1 (by decide)

/-- How a single batch request fails against the running copy of the
aggregate, and the typed error `returnItems` reports for it
(return-use-cases.ts lines 199-245): an individual request maps
`item_not_found` to `item_not_in_checkout` and `item_already_returned` to
`item_already_returned` (both carrying the item id), but
`checkout_completed` to `checkout_already_completed` (no id); a bulk
request maps every aggregate error — not-found, invalid quantity, or
completed checkout — to `item_not_in_checkout` carrying the type id. -/
def RequestFails (now : Int)
    (c : Checkout) (req : ReturnRequest) (e : ReturnItemsError) : Prop :=
  (truthyStr req.gearItemId = true ∧
    (((∃ s, c.returnItem (req.gearItemId.getD "")
          (req.condition.getD GearCondition.GOOD) req.notes now =
          Result.err (ReturnItemError.item_not_found s)) ∧
      e = ReturnItemsError.item_not_in_checkout (req.gearItemId.getD "")) ∨
     (c.returnItem (req.gearItemId.getD "")
        (req.condition.getD GearCondition.GOOD) req.notes now =
        Result.err ReturnItemError.item_already_returned ∧
      e = ReturnItemsError.item_already_returned (req.gearItemId.getD "")) ∨
     (c.returnItem (req.gearItemId.getD "")
        (req.condition.getD GearCondition.GOOD) req.notes now =
        Result.err ReturnItemError.checkout_completed ∧
      e = ReturnItemsError.checkout_already_completed))) ∨
  (truthyStr req.gearItemId = false ∧
   (truthyStr req.gearTypeId && truthyInt req.quantity) = true ∧
   (∃ e2, c.returnBulkItem (req.gearTypeId.getD "") (req.quantity.getD 0)
      req.notes now = Result.err e2) ∧
   e = ReturnItemsError.item_not_in_checkout (req.gearTypeId.getD ""))

theorem processReturns_err_first_failure (findG : String → Option GearItem)
    (now : Int) :
    ∀ (reqs : List ReturnRequest) (c : Checkout) (acc : List GearItem)
      (e : ReturnItemsError),
      processReturns findG now c acc reqs = Result.err e →
      ∃ pre req post c1 acc1,
        reqs = pre ++ req :: post ∧
        processReturns findG now c acc pre = Result.ok (c1, acc1) ∧
        RequestFails now c1 req e := by
  intro reqs
  induction reqs with
  | nil => intro c acc e h; simp [processReturns] at h
  | cons req rest ih =>
    intro c acc e h
    by_cases hind : truthyStr req.gearItemId = true
    · simp only [processReturns] at h
      rw [if_pos hind] at h
      cases hret : c.returnItem (req.gearItemId.getD "")
          (req.condition.getD GearCondition.GOOD) req.notes now with
      | ok c' =>
        rw [hret] at h
        simp only [] at h
        obtain ⟨pre', req', post', c1, acc1, hsplit, hrun, hfail⟩ := ih _ _ e h
        refine ⟨req :: pre', req', post', c1, acc1, by simp [hsplit], ?_, hfail⟩
        simp only [processReturns]
        rw [if_pos hind, hret]
        exact hrun
      | err e2 =>
        cases e2 with
        | item_not_found s =>
          rw [hret] at h
          simp only [] at h
          injection h with h2
          refine ⟨[], req, rest, c, acc, rfl, rfl, ?_⟩
          exact Or.inl ⟨hind, Or.inl ⟨⟨s, hret⟩, h2.symm⟩⟩
        | item_already_returned =>
          rw [hret] at h
          simp only [] at h
          injection h with h2
          refine ⟨[], req, rest, c, acc, rfl, rfl, ?_⟩
          exact Or.inl ⟨hind, Or.inr (Or.inl ⟨hret, h2.symm⟩)⟩
        | checkout_completed =>
          rw [hret] at h
          simp only [] at h
          injection h with h2
          refine ⟨[], req, rest, c, acc, rfl, rfl, ?_⟩
          exact Or.inl ⟨hind, Or.inr (Or.inr ⟨hret, h2.symm⟩)⟩
    · simp only [processReturns] at h
      rw [if_neg hind] at h
      by_cases hbulk : (truthyStr req.gearTypeId && truthyInt req.quantity) = true
      · rw [if_pos hbulk] at h
        cases hret : c.returnBulkItem (req.gearTypeId.getD "")
            (req.quantity.getD 0) req.notes now with
        | ok c' =>
          rw [hret] at h
          simp only [] at h
          obtain ⟨pre', req', post', c1, acc1, hsplit, hrun, hfail⟩ := ih _ _ e h
          refine ⟨req :: pre', req', post', c1, acc1, by simp [hsplit], ?_, hfail⟩
          simp only [processReturns]
          rw [if_neg hind, if_pos hbulk, hret]
          exact hrun
        | err e2 =>
          rw [hret] at h
          simp only [] at h
          injection h with h2
          refine ⟨[], req, rest, c, acc, rfl, rfl, ?_⟩
          exact Or.inr ⟨by simpa using hind, hbulk, ⟨e2, hret⟩, h2.symm⟩
      · rw [if_neg hbulk] at h
        obtain ⟨pre', req', post', c1, acc1, hsplit, hrun, hfail⟩ := ih _ _ e h
        refine ⟨req :: pre', req', post', c1, acc1, by simp [hsplit], ?_, hfail⟩
        simp only [processReturns]
        rw [if_neg hind, if_neg hbulk]
        exact hrun

/-- C6 counterexample: when an earlier request in the batch completes the
checkout, the next request for the same (now unreturnable) item aborts with
`checkout_already_completed` — an error carrying no item or type identifier
and indistinguishable from the fail-fast error — rather than one
identifying the failing item. -/
theorem returnItems_midbatch_completed_counterexample :
    returnItems (fun s => if s = "ck1" then some ckIndA else none) (fun _ => none) 5
      ⟨"ck1", [reqIndA, reqIndA]⟩ =
    ⟨Result.err ReturnItemsError.checkout_already_completed, [], []⟩ := by
  decide

/-- C6 (amended): the batch return use case fails fast with
`checkout_not_found` / `checkout_already_completed` before processing any
request; requests are applied sequentially to an in-memory running copy,
accumulating catalog-item updates; the first failing request aborts the
whole batch with the typed error derived from that request per
`RequestFails` — an individual failure is reported as
`item_not_in_checkout` / `item_already_returned` carrying the item id,
except a completed checkout (including one the batch itself just
completed), which is reported as `checkout_already_completed` with no id,
while every bulk failure is reported as `item_not_in_checkout` carrying the
type id — and on every failure path nothing is persisted: no checkout save
and no catalog-item save occurs. -/
theorem returnItems_spec (findC : String → Option Checkout)
    (findG : String → Option GearItem) (now : Int) (input : ReturnItemsInput) :
    (findC input.checkoutId = none →
      returnItems findC findG now input =
        ⟨Result.err (ReturnItemsError.checkout_not_found input.checkoutId), [], []⟩) ∧
    (∀ c0, findC input.checkoutId = some c0 →
      c0.status = CheckoutStatus.COMPLETED →
      returnItems findC findG now input =
        ⟨Result.err ReturnItemsError.checkout_already_completed, [], []⟩) ∧
    (∀ e, (returnItems findC findG now input).result = Result.err e →
      (returnItems findC findG now input).savedCheckouts = [] ∧
      (returnItems findC findG now input).savedGearItems = []) ∧
    (∀ c0 e, findC input.checkoutId = some c0 →
      ¬ c0.status = CheckoutStatus.COMPLETED →
      (returnItems findC findG now input).result = Result.err e →
      ∃ pre req post c1 acc1,
        input.returns = pre ++ req :: post ∧
        processReturns findG now c0 [] pre = Result.ok (c1, acc1) ∧
        RequestFails now c1 req e) := by
  refine ⟨?_, ?_, ?_, ?_⟩
  · intro hn
    unfold returnItems
    rw [hn]
  · intro c0 hsome hcomp
    unfold returnItems
    rw [hsome]
    simp only []
    rw [if_pos hcomp]
  · intro e he
    unfold returnItems at he ⊢
    cases hfc : findC input.checkoutId with
    | none => exact ⟨rfl, rfl⟩
    | some c0 =>
      rw [hfc] at he
      simp only [] at he ⊢
      by_cases hcomp : c0.status = CheckoutStatus.COMPLETED
      · rw [if_pos hcomp]
        exact ⟨rfl, rfl⟩
      · rw [if_neg hcomp] at he ⊢
        cases hp : processReturns findG now c0 [] input.returns with
        | err e2 => exact ⟨rfl, rfl⟩
        | ok p =>
          rw [hp] at he
          obtain ⟨fc, gs⟩ := p
          simp at he
  · intro c0 e hsome hnc he
    unfold returnItems at he
    rw [hsome] at he
    simp only [] at he
    rw [if_neg hnc] at he
    cases hp : processReturns findG now c0 [] input.returns with
    | ok p =>
      rw [hp] at he
      obtain ⟨fc, gs⟩ := p
      simp at he
    | err e2 =>
      rw [hp] at he
      simp only [] at he
      injection he with h2
      subst h2
      exact processReturns_err_first_failure findG now input.returns c0 [] e2 hp

/-- C6 witness: a batch against an unknown checkout id fails with
`checkout_not_found` and persists nothing. -/
theorem returnItems_spec_witness :
    returnItems (fun _ => none) (fun _ => none) 0 ⟨"ck", []⟩ =
      ⟨Result.err (ReturnItemsError.checkout_not_found "ck"), [], []⟩ :=
  (returnItems_spec (fun _ => none) (fun _ => none) 0 ⟨"ck", []⟩).1 rfl

/-- C7: `GearItem.markReturned` fails with `not_checked_out` exactly when the
item's status is not `CHECKED_OUT`; on success it records the given
condition and routes the item to `MAINTENANCE` if and only if the condition
is `NEEDS_REPAIR`, and to `AVAILABLE` for every other condition. -/
theorem markReturned_spec (g : GearItem) (condition : GearCondition) (now : Int) :
    (¬ g.status = GearStatus.CHECKED_OUT ↔
      g.markReturned condition now = Result.err MarkReturnedError.not_checked_out) ∧
    (g.status = GearStatus.CHECKED_OUT →
      ∃ g', g.markReturned condition now = Result.ok g' ∧
        g'.condition = condition ∧
        (g'.status = GearStatus.MAINTENANCE ↔ condition = GearCondition.NEEDS_REPAIR) ∧
        (¬ condition = GearCondition.NEEDS_REPAIR →
          g'.status = GearStatus.AVAILABLE)) := by
  constructor
  · constructor
    · intro hnc
      unfold GearItem.markReturned
      rw [if_pos hnc]
    · intro he hc
      unfold GearItem.markReturned at he
      rw [if_neg (by simp [hc])] at he
      simp at he
  · intro hc
    refine ⟨{ g with
                status :=
                  if condition = GearCondition.NEEDS_REPAIR then GearStatus.MAINTENANCE
                  else GearStatus.AVAILABLE
                condition := condition
                updatedAt := now }, ?_, rfl, ?_, ?_⟩
    · unfold GearItem.markReturned
      rw [if_neg (by simp [hc])]
    · by_cases hcond : condition = GearCondition.NEEDS_REPAIR <;> simp [hcond]
    · intro hcond
      simp [hcond]

/-- C7 witness: a checked-out item returned in condition `NEEDS_REPAIR` goes
to `MAINTENANCE`, not `AVAILABLE`. -/
theorem markReturned_spec_witness :
    ∃ g', gearG1.markReturned GearCondition.NEEDS_REPAIR 5 = Result.ok g' ∧
      g'.condition = GearCondition.NEEDS_REPAIR ∧
      (g'.status = GearStatus.MAINTENANCE ↔
        GearCondition.NEEDS_REPAIR = GearCondition.NEEDS_REPAIR) ∧
      (¬ GearCondition.NEEDS_REPAIR = GearCondition.NEEDS_REPAIR →
        g'.status = GearStatus.AVAILABLE) :=
  (markReturned_spec gearG1 GearCondition.NEEDS_REPAIR 5).2 rfl

/-- C8 counterexample: a quantity-0 bulk return is not always a no-op — on a
line that is already fully satisfied, the code re-evaluates
`returnedQuantity >= quantity` and overwrites `returnedAt` with the new
timestamp. -/
theorem returnBulkItem_zero_overwrites_returnedAt :
    Checkout.create "m" "s" [specBulkT2, specBulkU1] none "ck" 0 = Result.ok ckTU ∧
    ckTU.returnBulkItem "T" 2 none 5 = Result.ok ckTU5 ∧
    ckTU5.returnBulkItem "T" 0 none 9 = Result.ok ckTU9 ∧
    ¬ ckTU9 = ckTU5 ∧
    ckTU9.items.map CheckoutItem.returnedAt = [some 9, none] ∧
    ckTU5.items.map CheckoutItem.returnedAt = [some 5, none] := by
  refine ⟨by decide, by decide, by decide, by decide, by decide, by decide⟩

/-- C8 (amended): on a reachable non-completed checkout whose first line for
the given type id is not yet fully satisfied
(`returnedQuantity < quantity`), a quantity-0 bulk return with no notes
succeeds and returns the aggregate unchanged in every field. -/
theorem returnBulkItem_zero_noop (c : Checkout) (tid : String) (now : Int)
    (h : Reachable c) (hnc : ¬ c.status = CheckoutStatus.COMPLETED)
    (pre : List CheckoutItem) (item : CheckoutItem) (post : List CheckoutItem)
    (hsplit : c.items = pre ++ item :: post)
    (hpre : ∀ x ∈ pre, ¬ x.gearTypeId = some tid)
    (hmatch : item.gearTypeId = some tid)
    (hnotfull : item.returnedQuantity < item.quantity) :
    c.returnBulkItem tid 0 none now = Result.ok c := by
  obtain ⟨hs, hca⟩ := reachable_statusConsistent c h
  have hcan : c.completedAt = none := by
    cases hcc : c.completedAt with
    | none => rfl
    | some t => exact absurd (hca.mp (by rw [hcc]; rfl)) hnc
  unfold Checkout.returnBulkItem
  rw [if_neg hnc, hsplit,
    returnBulkItemInList_first_match _ _ _ _ _ _ _ hpre hmatch,
    if_neg (by omega)]
  have hupd : ({ item with
      returnedQuantity := item.returnedQuantity + 0
      returnedAt :=
        if item.returnedQuantity + 0 ≥ item.quantity then some now
        else item.returnedAt
      returnNotes := notesOr none item.returnNotes } : CheckoutItem) = item := by
    have h1 : item.returnedQuantity + 0 = item.returnedQuantity := by omega
    have h2 : ¬ item.returnedQuantity + 0 ≥ item.quantity := by omega
    rw [if_neg h2, h1]
    rfl
  rw [hupd, ← hsplit]
  simp only []
  rw [← hs, if_neg hnc, ← hcan]

/-- C8 witness: a quantity-0 return against a fresh (unsatisfied) bulk line
of a reachable checkout leaves the aggregate exactly as it was. -/
theorem returnBulkItem_zero_noop_witness :
    ckTU.returnBulkItem "T" 0 none 9 = Result.ok ckTU :=
  returnBulkItem_zero_noop ckTU "T" 9
    (Reachable.created "m" "s" [specBulkT2, specBulkU1] none "ck" 0 ckTU (by decide))
    (by decide) [] itemBulkT [itemBulkU] (by decide) (by simp) (by decide) (by decide)

/-! ## Folded-maximum lemmas for the overdue query -/

theorem foldl_max_start_le (f : CheckoutItem → Int) :
    ∀ (l : List CheckoutItem) (a : Int),
      a ≤ l.foldl (fun acc it => max acc (f it)) a := by
  intro l
  induction l with
  | nil => intro a; exact le_refl a
  | cons y ys ih =>
    intro a
    exact le_trans (le_max_left a (f y)) (ih (max a (f y)))

theorem foldl_max_mem_le (f : CheckoutItem → Int) (x : CheckoutItem) :
    ∀ (l : List CheckoutItem) (a : Int), x ∈ l →
      f x ≤ l.foldl (fun acc it => max acc (f it)) a := by
  intro l
  induction l with
  | nil => intro a hx; simp at hx
  | cons y ys ih =>
    intro a hx
    rcases List.mem_cons.mp hx with h | h
    · subst h
      exact le_trans (le_max_right a (f x)) (foldl_max_start_le f ys (max a (f x)))
    · exact ih (max a (f y)) h

theorem foldl_max_attained (f : CheckoutItem → Int) :
    ∀ (l : List CheckoutItem) (a : Int),
      l.foldl (fun acc it => max acc (f it)) a = a ∨
      ∃ x ∈ l, l.foldl (fun acc it => max acc (f it)) a = f x := by
  intro l
  induction l with
  | nil => intro a; left; rfl
  | cons y ys ih =>
    intro a
    have hstep : (y :: ys).foldl (fun acc it => max acc (f it)) a =
        ys.foldl (fun acc it => max acc (f it)) (max a (f y)) := rfl
    rcases ih (max a (f y)) with h | ⟨x, hx, h⟩
    · rcases max_choice a (f y) with hm | hm
      · left
        rw [hstep, h, hm]
      · right
        exact ⟨y, by simp, by rw [hstep, h, hm]⟩
    · right
      exact ⟨x, by simp [hx], by rw [hstep, h]⟩

theorem mem_getOverdueItems (c : Checkout) (asOf : Int) (it : CheckoutItem) :
    it ∈ c.getOverdueItems asOf ↔
      it ∈ c.items ∧ isItemFullyReturned it = false ∧ it.dueAt < asOf := by
  unfold Checkout.getOverdueItems
  rw [List.mem_filter]
  simp [Bool.not_eq_true']

theorem itemDaysOverdue_nonneg (asOf : Int) (it : CheckoutItem)
    (h : it.dueAt < asOf) : 0 ≤ itemDaysOverdue asOf it := by
  unfold itemDaysOverdue
  exact Int.fdiv_nonneg (by omega) (by norm_num)

/-- C9: `isOverdue asOf` holds iff some unresolved line is due strictly
before `asOf` (a line due exactly at `asOf` is not overdue), and
`daysOverdue asOf` is 0 when no line is overdue and otherwise the largest
`floor((asOf - dueAt) / 86400000 ms)` over the overdue unresolved lines
(attained at one of them and an upper bound for all of them). -/
theorem overdue_spec (c : Checkout) (asOf : Int) :
    (c.isOverdue asOf = true ↔
      ∃ it ∈ c.items, isItemFullyReturned it = false ∧ it.dueAt < asOf) ∧
    ((∀ it ∈ c.items, isItemFullyReturned it = false → ¬ it.dueAt < asOf) →
      c.daysOverdue asOf = 0) ∧
    (∀ it ∈ c.items, isItemFullyReturned it = false → it.dueAt < asOf →
      itemDaysOverdue asOf it ≤ c.daysOverdue asOf) ∧
    ((∃ it ∈ c.items, isItemFullyReturned it = false ∧ it.dueAt < asOf) →
      ∃ it ∈ c.items, isItemFullyReturned it = false ∧ it.dueAt < asOf ∧
        c.daysOverdue asOf = itemDaysOverdue asOf it) := by
  refine ⟨?_, ?_, ?_, ?_⟩
  · unfold Checkout.isOverdue
    rw [List.any_eq_true]
    simp [Bool.not_eq_true']
  · intro hnone
    have hnil : c.getOverdueItems asOf = [] := by
      unfold Checkout.getOverdueItems
      rw [List.filter_eq_nil_iff]
      intro it hit hcontra
      rw [Bool.and_eq_true, Bool.not_eq_true', decide_eq_true_eq] at hcontra
      exact hnone it hit hcontra.1 hcontra.2
    unfold Checkout.daysOverdue
    rw [hnil]
  · intro it hmem hfull hdue
    have hov : it ∈ c.getOverdueItems asOf :=
      (mem_getOverdueItems c asOf it).mpr ⟨hmem, hfull, hdue⟩
    cases hlist : c.getOverdueItems asOf with
    | nil => rw [hlist] at hov; simp at hov
    | cons hd tl =>
      unfold Checkout.daysOverdue
      rw [hlist]
      rw [hlist] at hov
      rcases List.mem_cons.mp hov with h | h
      · subst h
        exact le_trans (foldl_max_start_le (itemDaysOverdue asOf) tl _)
          (le_max_right 0 _)
      · exact le_trans (foldl_max_mem_le (itemDaysOverdue asOf) it tl _ h)
          (le_max_right 0 _)
  · intro hex
    obtain ⟨it0, hmem0, hfull0, hdue0⟩ := hex
    have hov0 : it0 ∈ c.getOverdueItems asOf :=
      (mem_getOverdueItems c asOf it0).mpr ⟨hmem0, hfull0, hdue0⟩
    cases hlist : c.getOverdueItems asOf with
    | nil => rw [hlist] at hov0; simp at hov0
    | cons hd tl =>
      have hd_ov : hd ∈ c.getOverdueItems asOf := by rw [hlist]; simp
      obtain ⟨hdmem, hdfull, hddue⟩ := (mem_getOverdueItems c asOf hd).mp hd_ov
      have hdays : c.daysOverdue asOf =
          max 0 (tl.foldl (fun acc it => max acc (itemDaysOverdue asOf it))
            (itemDaysOverdue asOf hd)) := by
        unfold Checkout.daysOverdue
        rw [hlist]
      rcases foldl_max_attained (itemDaysOverdue asOf) tl (itemDaysOverdue asOf hd)
        with h | ⟨x, hx, h⟩
      · refine ⟨hd, hdmem, hdfull, hddue, ?_⟩
        rw [hdays, h, max_eq_right (itemDaysOverdue_nonneg asOf hd hddue)]
      · have hx_ov : x ∈ c.getOverdueItems asOf := by rw [hlist]; simp [hx]
        obtain ⟨hxmem, hxfull, hxdue⟩ := (mem_getOverdueItems c asOf x).mp hx_ov
        refine ⟨x, hxmem, hxfull, hxdue, ?_⟩
        rw [hdays, h, max_eq_right (itemDaysOverdue_nonneg asOf x hxdue)]

/-- C9 witness: the bound instantiated at a concrete overdue line: the line
of `ckIndA` is 100 ms overdue at t=200, so its whole-day count (0) bounds
`daysOverdue`. -/
theorem overdue_spec_witness :
    itemDaysOverdue 200 itemIndA ≤ ckIndA.daysOverdue 200 :=
  (overdue_spec ckIndA 200).2.2.1 itemIndA (by decide) (by decide) (by decide)

/-- Line "A" of `ckIndA` with its due date moved to t=999. -/
def itemIndA999 : CheckoutItem :=
  ⟨some "A", none, 1, 0, 999, none, 0, some GearCondition.GOOD, none, none⟩

/-- `ckIndA` after `extendDueDate "A" 999`. -/
def ckIndA999 : Checkout :=
  ⟨"ck", "m", "s", [itemIndA999], CheckoutStatus.ACTIVE, 0, none, none⟩

/-- C10 counterexample: `extendDueDate` is a third state-changing public
operation — it returns an aggregate whose matched line has a new `dueAt`,
so not every non-return operation leaves the observable state unchanged. -/
theorem extendDueDate_mutates_counterexample :
    ckIndA.extendDueDate "A" 999 = Result.ok ckIndA999 ∧
    ¬ ckIndA999 = ckIndA ∧
    ckIndA999.items.map CheckoutItem.dueAt = [999] ∧
    ckIndA.items.map CheckoutItem.dueAt = [100] := by
  refine ⟨by decide, by decide, by decide, by decide⟩

/-- C10 (amended): besides the two return operations, the only
state-changing public operation is `extendDueDate`; on success it rewrites
exactly the first unresolved line matching the given id (as item id or type
id), changing only that line's `dueAt`, and leaves every aggregate-level
field — id, member, staff, status, createdAt, completedAt, notes — and
every other line unchanged. -/
theorem extendDueDate_frame (c : Checkout) (itemId : String) (d : Int)
    (c' : Checkout) (h : c.extendDueDate itemId d = Result.ok c') :
    c'.id = c.id ∧ c'.memberId = c.memberId ∧ c'.staffMemberId = c.staffMemberId ∧
    c'.status = c.status ∧ c'.createdAt = c.createdAt ∧
    c'.completedAt = c.completedAt ∧ c'.notes = c.notes ∧
    ∃ pre item post,
      c.items = pre ++ item :: post ∧
      (∀ x ∈ pre, ¬ (x.gearItemId = some itemId ∨ x.gearTypeId = some itemId)) ∧
      (item.gearItemId = some itemId ∨ item.gearTypeId = some itemId) ∧
      isItemFullyReturned item = false ∧
      c'.items = pre ++ ({ item with dueAt := d } :: post) := by
  unfold Checkout.extendDueDate at h
  cases hr : extendDueDateInList itemId d c.items with
  | err e => rw [hr] at h; simp at h
  | ok items' =>
    rw [hr] at h
    simp only [] at h
    injection h with h2
    obtain ⟨pre, item, post, hsplit, hpre, hm, hf, hres⟩ :=
      extendDueDateInList_ok_exists itemId d c.items items' hr
    subst h2
    exact ⟨rfl, rfl, rfl, rfl, rfl, rfl, rfl, pre, item, post, hsplit, hpre, hm, hf, hres⟩

/-- C10 witness: the frame property instantiated at a concrete due-date
extension. -/
theorem extendDueDate_frame_witness :
    ckIndA999.status = ckIndA.status ∧ ckIndA999.completedAt = ckIndA.completedAt :=
  ⟨(extendDueDate_frame ckIndA "A" 999 ckIndA999 (by decide)).2.2.2.1,
   (extendDueDate_frame ckIndA "A" 999 ckIndA999 (by decide)).2.2.2.2.2.1⟩

end GearRoom
